import Mathlib

/-!
Shallow embedding of the ATT/GATT client tool `src/attrib/gatttool.c`.

The response callbacks (`primary_cb`, `char_discovered_cb`, `char_desc_cb`,
`char_read_cb`, `events_handler`), the idle-callback entry points (`primary`,
`characteristics`, `characteristics_read`, `characteristics_write`,
`characteristics_desc`), the hex parser `attr_data_from_string`, and the exit-code
logic of `main` are translated from the source.  They are modelled as pure
functions from their inputs (status code, decoded response, option values) to the
list of observable actions they perform, in order: prints, requests handed to the
gatt/dispatch layer, PDU sends, freeing of callback data, and quitting the main
loop.

The gatt helper layer (`gatt_discover_primary`, `gatt_discover_char`,
`gatt_find_info`, `gatt_read_char`, `gatt_write_cmd`, `enc_confirmation`) and the
Transaction Dispatcher (`g_attrib_send` correlation state) live in `attrib/gatt.c`,
`attrib/att.c` and `attrib/gattrib.c`, which are not part of the sources under
verification; those definitions are modelled from the specification and are marked
as such in their doc comments.
-/

namespace GattTool

/-- ATT error code "Attribute Not Found" (0x0A), the protocol's end-of-range
signal for the discovery sub-procedures. -/
def ATT_ECODE_ATTR_NOT_FOUND : Nat := 0x0a

/-- Opcode of a handle-value notification PDU. -/
def ATT_OP_HANDLE_NOTIFY : Nat := 0x1b

/-- Opcode of a handle-value indication PDU. -/
def ATT_OP_HANDLE_IND : Nat := 0x1d

/-- Opcode of a handle-value confirmation PDU. -/
def ATT_OP_HANDLE_CNF : Nat := 0x1e

/-- A UUID as built by the callbacks: 16-bit short form via `sdp_uuid16_create`
or 128-bit long form via `sdp_uuid128_create`. -/
inductive UUID where
  | uuid16 (v : Nat)
  | uuid128 (bytes : List Nat)
deriving DecidableEq, Repr

/-- A decoded `struct att_data_list`: `len` is the uniform byte length of each
element and `data` the list of elements (byte lists). -/
structure AttDataList where
  len : Nat
  data : List (List Nat)
deriving DecidableEq, Repr

/-- `att_get_u16` at a byte offset of a PDU / element: little-endian 16-bit read.
Out-of-range reads yield 0 bytes. -/
def le16 (bytes : List Nat) (off : Nat) : Nat :=
  bytes.getD off 0 + 256 * bytes.getD (off + 1) 0

/-- A request handed to the gatt layer (and from there to the Transaction
Dispatcher / Transport). -/
inductive Request where
  | readByGroup (startHandle endHandle : Nat)
  | readByType (startHandle endHandle : Nat)
  | findInfo (startHandle endHandle : Nat)
  | readChar (handle : Nat)
  | writeCmd (handle : Nat) (value : List Nat)
deriving DecidableEq, Repr

/-- Errors detected locally by the (spec-modelled) gatt/dispatch layer. -/
inductive GattError where
  | invalidRange
  | busyError
  | valueTooLarge
deriving DecidableEq, Repr

/-- One observable action of a translated function, in program order. -/
inductive Action where
  | printServiceEntry (startHandle endHandle : Nat) (uuid : UUID)
  | printErrPrimaryFailed (code : Nat)
  | printCharEntry (declHandle properties valueHandle : Nat) (uuid : UUID)
  | printErrCharFailed (code : Nat)
  | printDescEntry (handle : Nat) (uuid : UUID)
  | printErrDescFailed (code : Nat)
  | printErrReadFailed (code : Nat)
  | printErrProtocolError
  | printReadHeader
  | printNotifyHeader (handle : Nat)
  | printIndicationHeader (handle : Nat)
  | printInvalidOpcode
  | printValueByte (b : Nat)
  | printErrValidHandleRequired
  | printErrValueRequired
  | printErrInvalidValue
  | printErrParse
  | printHelp
  | request (r : Request)
  | attribSend (pdu : List Nat)
  | quitLoop
  | freeCharData
  | runLoop
deriving DecidableEq, Repr

/-- Whether an action hands a request to the gatt/dispatch layer. -/
def Action.isRequest : Action → Bool
  | .request _ => true
  | _ => false

/-- Whether a trace contains a request handed to the gatt/dispatch layer. -/
def hasRequest : List Action → Bool
  | [] => false
  | a :: rest => a.isRequest || hasRequest rest

/-- Whether an action sends a raw PDU through `g_attrib_send` (the confirmation
path of the event handler). -/
def Action.isSend : Action → Bool
  | .attribSend _ => true
  | _ => false

/-- Number of confirmation PDUs sent in a trace. -/
def countSend : List Action → Nat
  | [] => 0
  | a :: rest => (if a.isSend then 1 else 0) + countSend rest

/-- Modelled from the spec: `gatt_discover_primary` (attrib/gatt.c, not under
src/) issues a read-by-group-type request for the Primary Service group type
over the inclusive window; requesting with start > end is invalid and fails
immediately with `InvalidRange` without consulting the Dispatcher (§4.2). -/
def gatt_discover_primary (startHandle endHandle : Nat) : Except GattError Request :=
  if startHandle > endHandle then .error .invalidRange
  else .ok (.readByGroup startHandle endHandle)

/-- Modelled from the spec: `gatt_discover_char` (attrib/gatt.c, not under src/)
issues a read-by-type request for the Characteristic Declaration type over the
inclusive window, with the same `InvalidRange` guard (§4.2). -/
def gatt_discover_char (startHandle endHandle : Nat) : Except GattError Request :=
  if startHandle > endHandle then .error .invalidRange
  else .ok (.readByType startHandle endHandle)

/-- Modelled from the spec: `gatt_find_info` (attrib/gatt.c, not under src/)
issues a find-information request over the inclusive window, with the same
`InvalidRange` guard (§4.2). -/
def gatt_find_info (startHandle endHandle : Nat) : Except GattError Request :=
  if startHandle > endHandle then .error .invalidRange
  else .ok (.findInfo startHandle endHandle)

/-- Modelled from the spec: `gatt_read_char` (attrib/gatt.c, not under src/)
issues a read request for the given attribute handle (§4.3). -/
def gatt_read_char (handle : Nat) : Except GattError Request :=
  .ok (.readChar handle)

/-- Modelled from the spec: `gatt_write_cmd` (attrib/gatt.c, not under src/)
issues a write-command PDU; input bytes must fit within (negotiated MTU − 3),
larger input fails with `ValueTooLarge` before transmission (§4.3). -/
def gatt_write_cmd (mtu handle : Nat) (value : List Nat) : Except GattError Request :=
  if value.length > mtu - 3 then .error .valueTooLarge
  else .ok (.writeCmd handle value)

/-- Modelled from the spec: `enc_confirmation` (attrib/att.c, not under src/)
encodes the one-byte handle-value confirmation PDU (§4.4); it succeeds on the
caller's `ATT_MAX_MTU`-sized buffer, so its returned length is positive. -/
def enc_confirmation : List Nat := [ATT_OP_HANDLE_CNF]

/-- The actions performed when a gatt helper call's result is ignored by the
caller: on success the request reaches the Dispatcher, on a locally detected
error nothing is sent (the source ignores the return value). -/
def issue : Except GattError Request → List Action
  | .ok r => [Action.request r]
  | .error _ => []

/-- The `done:` label shared by `primary_cb`, `char_read_cb` and `char_desc_cb`:
quit the main loop unless `--listen` was given. -/
def doneActions (optListen : Bool) : List Action :=
  if optListen then [] else [Action.quitLoop]

/-- The `done:` label of `char_discovered_cb`: free the `characteristic_data`
then quit the main loop unless `--listen` was given. -/
def charDoneActions (optListen : Bool) : List Action :=
  Action.freeCharData :: doneActions optListen

/-- Translation of `primary_cb` (gatttool.c:128-188).  `decoded` is the result
of the external `dec_read_by_grp_resp`: `none` when it returns NULL.  Each
element holds start handle, end group handle and the attribute value (UUID);
`end` starts at 0 and is overwritten by each element; after the loop another
read-by-group-type request is issued over [end + 1, opt_end] (the uint16_t
parameter conversion reduces end + 1 modulo 2^16). -/
def primary_cb (optEnd : Nat) (optListen : Bool) (status : Nat)
    (decoded : Option AttDataList) : List Action :=
  if status = ATT_ECODE_ATTR_NOT_FOUND then doneActions optListen
  else if status ≠ 0 then
    Action.printErrPrimaryFailed status :: doneActions optListen
  else
    match decoded with
    | none => doneActions optListen
    | some list =>
      let step := fun (acc : List Action × Nat) (value : List Nat) =>
        -- uint8_t length = list->len - 2 * sizeof(uint16_t)
        let lengthF := (list.len + 252) % 256
        let startH := le16 value 0
        let endH := le16 value 2
        let uuid := if lengthF = 2 then UUID.uuid16 (le16 value 4)
                    else UUID.uuid128 (value.drop 4)
        (acc.1 ++ [Action.printServiceEntry startH endH uuid], endH)
      let folded := list.data.foldl step ([], 0)
      folded.1 ++ issue (gatt_discover_primary ((folded.2 + 1) % 65536) optEnd)

/-- Translation of `events_handler` (gatttool.c:190-222): print the event header
and value bytes; a notification returns with no acknowledgment; an indication
then encodes a confirmation and, its length being positive, sends it through
`g_attrib_send`; any other opcode only prints an error. -/
def events_handler (pdu : List Nat) : List Action :=
  let op := pdu.getD 0 0
  let handle := le16 pdu 1
  if op = ATT_OP_HANDLE_NOTIFY then
    Action.printNotifyHeader handle :: (pdu.drop 3).map Action.printValueByte
  else if op = ATT_OP_HANDLE_IND then
    (Action.printIndicationHeader handle :: (pdu.drop 3).map Action.printValueByte)
      ++ (if enc_confirmation.length > 0 then [Action.attribSend enc_confirmation] else [])
  else
    [Action.printInvalidOpcode]

/-- Translation of `primary` (gatttool.c:236-243): hand a read-by-group-type
request over [opt_start, opt_end] to the gatt layer, ignoring its result. -/
def primary (optStart optEnd : Nat) : List Action :=
  issue (gatt_discover_primary optStart optEnd)

/-- Translation of `char_discovered_cb` (gatttool.c:245-299).  `last` starts at
the window start; each element overwrites it with the declaration handle read
from its first two bytes; after the loop another read-by-type request is issued
over [last + 1, char_data->end].  When `dec_read_by_type_resp` returns NULL the
source returns without reaching the `done:` label: no quit, no free. -/
def char_discovered_cb (charStart charEnd : Nat) (optListen : Bool) (status : Nat)
    (decoded : Option AttDataList) : List Action :=
  if status = ATT_ECODE_ATTR_NOT_FOUND then charDoneActions optListen
  else if status ≠ 0 then
    Action.printErrCharFailed status :: charDoneActions optListen
  else
    match decoded with
    | none => []
    | some list =>
      let step := fun (acc : List Action × Nat) (value : List Nat) =>
        let last := le16 value 0
        let uuid := if list.len = 7 then UUID.uuid16 (le16 value 5)
                    else UUID.uuid128 (value.drop 5)
        (acc.1 ++ [Action.printCharEntry last (value.getD 2 0) (le16 value 3) uuid], last)
      let folded := list.data.foldl step ([], charStart)
      folded.1 ++ issue (gatt_discover_char ((folded.2 + 1) % 65536) charEnd)

/-- Translation of `characteristics` (gatttool.c:301-315): allocate the
characteristic data ([opt_start, opt_end]) and hand a read-by-type request over
[opt_start, opt_end] to the gatt layer, ignoring its result. -/
def characteristics (optStart optEnd : Nat) : List Action :=
  issue (gatt_discover_char optStart optEnd)

/-- Translation of `char_read_cb` (gatttool.c:317-340).  `decoded` is the result
of the external `dec_read_resp`: `none` when it fails, in which case a protocol
error is printed; otherwise the value bytes are printed. -/
def char_read_cb (optListen : Bool) (status : Nat) (decoded : Option (List Nat)) :
    List Action :=
  if status ≠ 0 then
    Action.printErrReadFailed status :: doneActions optListen
  else
    match decoded with
    | none => Action.printErrProtocolError :: doneActions optListen
    | some value =>
      (Action.printReadHeader :: value.map Action.printValueByte) ++ doneActions optListen

/-- Translation of `characteristics_read` (gatttool.c:342-355): a non-positive
`opt_handle` (its unset default is -1) prints "A valid handle is required" and
quits the loop; otherwise a read request is issued for the handle. -/
def characteristics_read (optHandle : Int) : List Action :=
  if optHandle ≤ 0 then
    [Action.printErrValidHandleRequired, Action.quitLoop]
  else
    issue (gatt_read_char (optHandle.toNat % 65536))

/-- Whether a character counts as whitespace for C `strtol` (isspace in the C
locale). -/
def isCSpace (c : Char) : Bool :=
  c = ' ' ∨ c = '\t' ∨ c = '\n' ∨ c = Char.ofNat 11 ∨ c = Char.ofNat 12 ∨ c = '\r'

/-- Value of a hexadecimal digit character, if it is one. -/
def hexVal (c : Char) : Option Nat :=
  if '0' ≤ c ∧ c ≤ '9' then some (c.toNat - '0'.toNat)
  else if 'a' ≤ c ∧ c ≤ 'f' then some (c.toNat - 'a'.toNat + 10)
  else if 'A' ≤ c ∧ c ≤ 'F' then some (c.toNat - 'A'.toNat + 10)
  else none

/-- `(uint8_t) strtol(tmp, NULL, 16)` for the two-character buffer `tmp` used by
`attr_data_from_string`: optional leading whitespace or sign, then hexadecimal
digits; a failed parse yields 0; the result is truncated to an unsigned byte. -/
def strtol2 (c1 c2 : Char) : Nat :=
  if isCSpace c1 then
    match hexVal c2 with
    | some d => d
    | none => 0
  else if c1 = '+' then
    match hexVal c2 with
    | some d => d
    | none => 0
  else if c1 = '-' then
    match hexVal c2 with
    | some d => (256 - d) % 256
    | none => 0
  else
    match hexVal c1 with
    | none => 0
    | some d1 =>
      match hexVal c2 with
      | some d2 => (16 * d1 + d2) % 256
      | none => d1

/-- Consecutive character pairs of a string; a trailing odd character is
dropped (`size = strlen(str) / 2`). -/
def pairUp : List Char → List (Char × Char)
  | c1 :: c2 :: rest => (c1, c2) :: pairUp rest
  | _ => []

/-- Translation of `attr_data_from_string` (gatttool.c:357-374): every two input
characters are parsed as one byte with `strtol(..., 16)`. -/
def attr_data_from_string (str : List Char) : List Nat :=
  (pairUp str).map fun p => strtol2 p.1 p.2

/-- Translation of `characteristics_write` (gatttool.c:384-413): a non-positive
handle or a missing/empty value string prints an error and quits; a value string
parsing to zero bytes prints "Invalid value" and quits; otherwise the parsed
bytes are handed to `gatt_write_cmd` whose completion callback
(`mainloop_quit`) frees the value and quits the loop.  When `gatt_write_cmd`
fails locally its result is ignored and nothing happens. -/
def characteristics_write (mtu : Nat) (optHandle : Int) (optValue : Option (List Char)) :
    List Action :=
  if optHandle ≤ 0 then
    [Action.printErrValidHandleRequired, Action.quitLoop]
  else
    match optValue with
    | none => [Action.printErrValueRequired, Action.quitLoop]
    | some str =>
      if str.isEmpty then [Action.printErrValueRequired, Action.quitLoop]
      else
        let value := attr_data_from_string str
        if value.length = 0 then [Action.printErrInvalidValue, Action.quitLoop]
        else
          match gatt_write_cmd mtu (optHandle.toNat % 65536) value with
          | .ok r => [Action.request r, Action.quitLoop]
          | .error _ => []

/-- Translation of `char_desc_cb` (gatttool.c:415-456).  Any non-zero status —
including Attribute Not Found — prints a failure; a decoded find-information
response is printed entry by entry (`format` 0x01 selects the 16-bit UUID form)
and then control falls through to `done:`; no further request is issued. -/
def char_desc_cb (optListen : Bool) (status : Nat)
    (decoded : Option (Nat × AttDataList)) : List Action :=
  if status ≠ 0 then
    Action.printErrDescFailed status :: doneActions optListen
  else
    match decoded with
    | none => doneActions optListen
    | some fmtList =>
      (fmtList.2.data.map fun value =>
        let handle := le16 value 0
        let uuid := if fmtList.1 = 1 then UUID.uuid16 (le16 value 2)
                    else UUID.uuid128 (value.drop 2)
        Action.printDescEntry handle uuid)
      ++ doneActions optListen

/-- Translation of `characteristics_desc` (gatttool.c:458-465): hand a
find-information request over [opt_start, opt_end] to the gatt layer, ignoring
its result. -/
def characteristics_desc (optStart optEnd : Nat) : List Action :=
  issue (gatt_find_info optStart optEnd)

/-- The mutually exclusive GATT mode flags of the option parser. -/
structure Opts where
  optPrimary : Bool
  optCharacteristics : Bool
  optCharRead : Bool
  optCharWrite : Bool
  optCharDesc : Bool
deriving DecidableEq, Repr

/-- Translation of the control flow of `main` (gatttool.c:548-601) together
with the behaviour of the external `g_option_context_parse` (GLib): a failed
parse prints the parser's message and reverts every option value to its
default, so all mode flags are back at FALSE when `main` consults them (`o` is
the flag state as parsed before any revert); with no mode flag the help text is
printed and the exit code is 1; a failed connection exits 1; otherwise the main
loop runs and the exit code stays 0. -/
def gatttool_main (parseOk : Bool) (o : Opts) (connectOk : Bool) : List Action × Nat :=
  let parseActs := if parseOk then [] else [Action.printErrParse]
  let eff := if parseOk then o else ⟨false, false, false, false, false⟩
  if eff.optPrimary || eff.optCharacteristics || eff.optCharRead ||
      eff.optCharWrite || eff.optCharDesc then
    if connectOk then (parseActs ++ [Action.runLoop], 0)
    else (parseActs, 1)
  else
    (parseActs ++ [Action.printHelp], 1)

/-- The continuation slot of the (spec-modelled) Transaction Dispatcher; the
caller's continuation is identified by a token. -/
structure PendingReq where
  opcode : Nat
  body : List Nat
  contId : Nat
deriving DecidableEq, Repr

/-- Modelled from the spec: the Transaction Dispatcher state (attrib/gattrib.c,
not under src/) — at most one PendingRequest exists per session (§3, §4.1). -/
structure Dispatcher where
  pending : Option PendingReq
deriving DecidableEq, Repr

/-- Outcome delivered to a request's continuation: the decoded response or a
protocol error. -/
inductive AttOutcome where
  | success (pdu : List Nat)
  | protocolError (code : Nat)
deriving DecidableEq, Repr

/-- Modelled from the spec: `send(opcode, body, continuation)` of the
Transaction Dispatcher (§4.1): fails with `BusyError` if a PendingRequest
already exists; otherwise transmits the PDU, installs the PendingRequest, and
returns immediately.  The result carries the call's outcome, the dispatcher
state after the call, and the bytes transmitted (if any). -/
def Dispatcher.send (d : Dispatcher) (opcode : Nat) (body : List Nat) (contId : Nat) :
    Except GattError Unit × Dispatcher × Option (List Nat) :=
  match d.pending with
  | some _ => (.error .busyError, d, none)
  | none => (.ok (), ⟨some ⟨opcode, body, contId⟩⟩, some (opcode :: body))

/-- Modelled from the spec: response/error delivery of the Transaction
Dispatcher (§4.1): the PendingRequest is cleared and its continuation invoked
with the outcome; with no request outstanding nothing is invoked. -/
def Dispatcher.deliver (d : Dispatcher) (outcome : AttOutcome) :
    Option (Nat × AttOutcome) × Dispatcher :=
  match d.pending with
  | some p => (some (p.contId, outcome), ⟨none⟩)
  | none => (none, d)

/-- Whether any GATT mode flag was selected on the command line. -/
def someMode (o : Opts) : Bool :=
  o.optPrimary || o.optCharacteristics || o.optCharRead ||
    o.optCharWrite || o.optCharDesc

theorem countSend_append (a b : List Action) :
    countSend (a ++ b) = countSend a + countSend b := by
  induction a with
  | nil => simp [countSend]
  | cons x t ih => simp [countSend, ih, Nat.add_assoc]

theorem countSend_cons_notSend (a : Action) (l : List Action)
    (h : a.isSend = false) : countSend (a :: l) = countSend l := by
  simp [countSend, h]

theorem countSend_printValueByte (l : List Nat) :
    countSend (l.map Action.printValueByte) = 0 := by
  induction l with
  | nil => rfl
  | cons a t ih => simpa [countSend, Action.isSend] using ih

theorem hasRequest_append (a b : List Action) :
    hasRequest (a ++ b) = (hasRequest a || hasRequest b) := by
  induction a with
  | nil => rfl
  | cons x t ih => simp [hasRequest, ih, Bool.or_assoc]

theorem hasRequest_printDescEntries (fmt : Nat) (elems : List (List Nat)) :
    hasRequest (elems.map fun value =>
      Action.printDescEntry (le16 value 0)
        (if fmt = 1 then UUID.uuid16 (le16 value 2)
         else UUID.uuid128 (value.drop 2))) = false := by
  induction elems with
  | nil => rfl
  | cons a t ih => simpa [hasRequest, Action.isRequest] using ih

theorem events_handler_notify (pdu : List Nat)
    (hn : pdu.getD 0 0 = ATT_OP_HANDLE_NOTIFY) :
    events_handler pdu =
      Action.printNotifyHeader (le16 pdu 1) ::
        (pdu.drop 3).map Action.printValueByte := by
  simp only [events_handler]
  rw [if_pos hn]

theorem events_handler_ind (pdu : List Nat)
    (hi : pdu.getD 0 0 = ATT_OP_HANDLE_IND) :
    events_handler pdu =
      (Action.printIndicationHeader (le16 pdu 1) ::
        (pdu.drop 3).map Action.printValueByte) ++
      [Action.attribSend enc_confirmation] := by
  have hn : ¬ pdu.getD 0 0 = ATT_OP_HANDLE_NOTIFY := by
    rw [hi]; decide
  have henc : enc_confirmation.length > 0 := by decide
  simp only [events_handler]
  rw [if_neg hn, if_pos hi, if_pos henc]

theorem events_handler_other (pdu : List Nat)
    (hn : ¬ pdu.getD 0 0 = ATT_OP_HANDLE_NOTIFY)
    (hi : ¬ pdu.getD 0 0 = ATT_OP_HANDLE_IND) :
    events_handler pdu = [Action.printInvalidOpcode] := by
  simp only [events_handler]
  rw [if_neg hn, if_neg hi]

/-- C1: on a successful primary-discovery response whose last entry has end
group handle 0xFFFF, `primary_cb` does not stop: it computes 0xFFFF + 1, which
the uint16_t parameter conversion wraps to 0, and hands the gatt layer another
read-by-group-type request starting at handle 0x0000 — a further request is
issued, contradicting the claim's no-wrap-around completion clause. -/
theorem C1_end_ffff_wraparound :
    primary_cb 0xffff false 0 (some ⟨6, [[1, 0, 0xff, 0xff, 0, 0x18]]⟩) =
      [Action.printServiceEntry 1 0xffff (UUID.uuid16 0x1800),
       Action.request (Request.readByGroup 0 0xffff)] := by decide

/-- C2: in `primary_cb` and `char_discovered_cb`, status "Attribute Not Found"
(also on a first-request response, `decoded` being irrelevant) terminates the
sub-procedure with no further request and no failure print, while every other
non-zero status prints the discovery-failed message and likewise issues no
further request. -/
theorem C2_attr_not_found_completes (optEnd charStart charEnd status : Nat)
    (listen : Bool) (dp dc : Option AttDataList) :
    primary_cb optEnd listen ATT_ECODE_ATTR_NOT_FOUND dp = doneActions listen ∧
    char_discovered_cb charStart charEnd listen ATT_ECODE_ATTR_NOT_FOUND dc =
      charDoneActions listen ∧
    hasRequest (doneActions listen) = false ∧
    hasRequest (charDoneActions listen) = false ∧
    (status ≠ 0 → status ≠ ATT_ECODE_ATTR_NOT_FOUND →
      primary_cb optEnd listen status dp =
        Action.printErrPrimaryFailed status :: doneActions listen ∧
      char_discovered_cb charStart charEnd listen status dc =
        Action.printErrCharFailed status :: charDoneActions listen) := by
  refine ⟨by simp [primary_cb], by simp [char_discovered_cb], ?_, ?_, ?_⟩
  · cases listen <;> simp [hasRequest, doneActions, Action.isRequest]
  · cases listen <;> simp [hasRequest, doneActions, charDoneActions, Action.isRequest]
  · intro h0 hnf
    exact ⟨by simp [primary_cb, h0, hnf], by simp [char_discovered_cb, h0, hnf]⟩

/-- C2 witness: the theorem instantiated at status 5 (a non-terminal error) with
no decoded list, outside a listen session. -/
theorem C2_attr_not_found_completes_witness :
    primary_cb 0xffff false ATT_ECODE_ATTR_NOT_FOUND none = [Action.quitLoop] ∧
    char_discovered_cb 1 0xffff false ATT_ECODE_ATTR_NOT_FOUND none =
      [Action.freeCharData, Action.quitLoop] ∧
    primary_cb 0xffff false 5 none =
      [Action.printErrPrimaryFailed 5, Action.quitLoop] ∧
    char_discovered_cb 1 0xffff false 5 none =
      [Action.printErrCharFailed 5, Action.freeCharData, Action.quitLoop] := by
  have h := C2_attr_not_found_completes 0xffff 1 0xffff 5 false none none
  have he := h.2.2.2.2 (by decide) (by decide)
  exact ⟨h.1, h.2.1, he.1, he.2⟩

/-- C3 counterexample: a successful find-information response whose (single)
entry is at handle 0x0005 produces only the print and the loop quit — no
follow-up request starting past handle 0x0005 is issued although the window
extends further — and an Attribute Not Found status is printed as a discovery
failure instead of completing the loop successfully. -/
theorem C3_counterexample :
    char_desc_cb false 0 (some (1, ⟨4, [[5, 0, 2, 0x29]]⟩)) =
      [Action.printDescEntry 5 (UUID.uuid16 0x2902), Action.quitLoop] ∧
    hasRequest (char_desc_cb false 0 (some (1, ⟨4, [[5, 0, 2, 0x29]]⟩))) = false ∧
    char_desc_cb false ATT_ECODE_ATTR_NOT_FOUND none =
      [Action.printErrDescFailed ATT_ECODE_ATTR_NOT_FOUND, Action.quitLoop] := by
  decide

/-- C3 amended: descriptor discovery is single-shot — `char_desc_cb` never
hands the gatt layer a further request, and every non-zero status, Attribute
Not Found included, is printed as a discovery failure before the procedure
terminates. -/
theorem C3_desc_single_shot (listen : Bool) (status : Nat)
    (decoded : Option (Nat × AttDataList)) :
    hasRequest (char_desc_cb listen status decoded) = false ∧
    (status ≠ 0 →
      char_desc_cb listen status decoded =
        Action.printErrDescFailed status :: doneActions listen) := by
  have hdone : hasRequest (doneActions listen) = false := by
    cases listen <;> rfl
  by_cases h : status ≠ 0
  · have htr : char_desc_cb listen status decoded =
        Action.printErrDescFailed status :: doneActions listen := by
      simp only [char_desc_cb]
      rw [if_pos h]
    refine ⟨?_, fun _ => htr⟩
    rw [htr]
    simpa [hasRequest, Action.isRequest] using hdone
  · refine ⟨?_, fun hc => absurd hc h⟩
    simp only [char_desc_cb]
    rw [if_neg h]
    match decoded with
    | none => exact hdone
    | some fmtList =>
      rw [hasRequest_append, hasRequest_printDescEntries fmtList.1 fmtList.2.data,
        hdone]
      rfl

/-- C3 witness: the amended theorem instantiated at the Attribute Not Found
status outside a listen session. -/
theorem C3_desc_single_shot_witness :
    hasRequest (char_desc_cb false ATT_ECODE_ATTR_NOT_FOUND none) = false ∧
    char_desc_cb false ATT_ECODE_ATTR_NOT_FOUND none =
      [Action.printErrDescFailed ATT_ECODE_ATTR_NOT_FOUND, Action.quitLoop] := by
  have h := C3_desc_single_shot false ATT_ECODE_ATTR_NOT_FOUND none
  exact ⟨h.1, by simpa [doneActions] using h.2 (by decide)⟩

/-- C4: `events_handler` sends a confirmation PDU exactly when the event opcode
is an indication — exactly one per indication, placed after the header and
value-byte processing — and a notification (or invalid opcode) produces no
confirmation. -/
theorem C4_confirmation_iff_indication (pdu : List Nat) :
    countSend (events_handler pdu) =
      (if pdu.getD 0 0 = ATT_OP_HANDLE_IND then 1 else 0) ∧
    (pdu.getD 0 0 = ATT_OP_HANDLE_IND →
      events_handler pdu =
        (Action.printIndicationHeader (le16 pdu 1) ::
          (pdu.drop 3).map Action.printValueByte) ++
        [Action.attribSend enc_confirmation]) ∧
    (pdu.getD 0 0 = ATT_OP_HANDLE_NOTIFY →
      events_handler pdu =
        Action.printNotifyHeader (le16 pdu 1) ::
          (pdu.drop 3).map Action.printValueByte) := by
  by_cases hn : pdu.getD 0 0 = ATT_OP_HANDLE_NOTIFY
  · have hni : ¬ pdu.getD 0 0 = ATT_OP_HANDLE_IND := by
      rw [hn]; decide
    refine ⟨?_, fun h => absurd h hni, fun _ => events_handler_notify pdu hn⟩
    rw [events_handler_notify pdu hn, if_neg hni,
      countSend_cons_notSend (Action.printNotifyHeader (le16 pdu 1)) _ rfl,
      countSend_printValueByte]
  · by_cases hi : pdu.getD 0 0 = ATT_OP_HANDLE_IND
    · refine ⟨?_, fun _ => events_handler_ind pdu hi, fun h => absurd h hn⟩
      rw [events_handler_ind pdu hi, if_pos hi, countSend_append,
        countSend_cons_notSend (Action.printIndicationHeader (le16 pdu 1)) _ rfl,
        countSend_printValueByte]
      rfl
    · refine ⟨?_, fun h => absurd h hi, fun h => absurd h hn⟩
      rw [events_handler_other pdu hn hi, if_neg hi]
      rfl

/-- C4 witness: an indication PDU for handle 0x0010 with one value byte yields
the header, the value byte and exactly one trailing confirmation send, and the
corresponding notification PDU yields no send. -/
theorem C4_confirmation_iff_indication_witness :
    events_handler [0x1d, 0x10, 0, 0xab] =
      [Action.printIndicationHeader 0x10, Action.printValueByte 0xab,
       Action.attribSend [ATT_OP_HANDLE_CNF]] ∧
    countSend (events_handler [0x1b, 0x10, 0, 0xab]) = 0 := by
  have h1 := (C4_confirmation_iff_indication [0x1d, 0x10, 0, 0xab]).2.1 (by decide)
  have h2 := (C4_confirmation_iff_indication [0x1b, 0x10, 0, 0xab]).1
  constructor
  · rw [h1]; decide
  · rw [h2]; decide

/-- C5: with a PendingRequest outstanding, a second `send` fails with BusyError,
transmits nothing, leaves the dispatcher state unchanged, and the outstanding
request's continuation is still the one invoked — with exactly the outcome of
its own request — when the response is delivered. -/
theorem C5_busy_send_rejected (d : Dispatcher) (p : PendingReq) (opcode : Nat)
    (body : List Nat) (contId : Nat) (outcome : AttOutcome)
    (h : d.pending = some p) :
    (d.send opcode body contId).1 = .error .busyError ∧
    (d.send opcode body contId).2.2 = none ∧
    (d.send opcode body contId).2.1 = d ∧
    ((d.send opcode body contId).2.1.deliver outcome).1 =
      some (p.contId, outcome) := by
  cases d with
  | mk pending =>
    simp only at h
    subst h
    simp [Dispatcher.send, Dispatcher.deliver]

/-- C5 witness: the theorem instantiated at a dispatcher holding the pending
request (opcode 1, body [2], continuation 7) while a send of opcode 8 is
attempted and a success response is then delivered. -/
theorem C5_busy_send_rejected_witness :
    (Dispatcher.send ⟨some ⟨1, [2], 7⟩⟩ 8 [9] 11).1 =
      Except.error GattError.busyError ∧
    (Dispatcher.send ⟨some ⟨1, [2], 7⟩⟩ 8 [9] 11).2.2 = none ∧
    (Dispatcher.send ⟨some ⟨1, [2], 7⟩⟩ 8 [9] 11).2.1 = ⟨some ⟨1, [2], 7⟩⟩ ∧
    ((Dispatcher.send ⟨some ⟨1, [2], 7⟩⟩ 8 [9] 11).2.1.deliver
        (AttOutcome.success [3])).1 = some (7, AttOutcome.success [3]) :=
  C5_busy_send_rejected ⟨some ⟨1, [2], 7⟩⟩ ⟨1, [2], 7⟩ 8 [9] 11
    (AttOutcome.success [3]) rfl

/-- C6: every discovery sub-procedure invoked with start > end fails locally
with InvalidRange in the gatt layer, and the corresponding entry point hands no
request to the Dispatcher (the trace is empty, so no I/O occurs). -/
theorem C6_invalid_range_rejected (s e : Nat) (h : e < s) :
    gatt_discover_primary s e = .error .invalidRange ∧
    gatt_discover_char s e = .error .invalidRange ∧
    gatt_find_info s e = .error .invalidRange ∧
    primary s e = [] ∧ characteristics s e = [] ∧
    characteristics_desc s e = [] := by
  simp [gatt_discover_primary, gatt_discover_char, gatt_find_info, primary,
    characteristics, characteristics_desc, issue, h]

/-- C6 witness: the theorem instantiated at the window [2, 1]. -/
theorem C6_invalid_range_rejected_witness :
    gatt_discover_primary 2 1 = Except.error GattError.invalidRange ∧
    gatt_discover_char 2 1 = Except.error GattError.invalidRange ∧
    gatt_find_info 2 1 = Except.error GattError.invalidRange ∧
    primary 2 1 = [] ∧ characteristics 2 1 = [] ∧
    characteristics_desc 2 1 = [] :=
  C6_invalid_range_rejected 2 1 (by decide)

/-- C7: a write-without-response payload longer than MTU − 3 — in particular one
of length MTU − 2 — is rejected by `gatt_write_cmd` with ValueTooLarge, and
`characteristics_write` performs no request and no transport send for it (its
trace is empty: the source ignores the failed call's result). -/
theorem C7_value_too_large (mtu handle : Nat) (value : List Nat) (optHandle : Int)
    (str : List Char) (hlen : mtu - 3 < value.length) (hoh : 0 < optHandle)
    (hstr : attr_data_from_string str = value) :
    gatt_write_cmd mtu handle value = .error .valueTooLarge ∧
    characteristics_write mtu optHandle (some str) = [] := by
  have hpos : 0 < value.length := lt_of_le_of_lt (Nat.zero_le _) hlen
  refine ⟨by simp [gatt_write_cmd, hlen], ?_⟩
  have hnot : ¬ optHandle ≤ 0 := by omega
  have hne : str ≠ [] := by
    intro hemp
    have hv : value = [] := by
      simpa [hemp, attr_data_from_string, pairUp] using hstr.symm
    rw [hv] at hpos
    simp at hpos
  have hie : str.isEmpty = false := by
    cases str with
    | nil => exact absurd rfl hne
    | cons c t => rfl
  have hw : gatt_write_cmd mtu (optHandle.toNat % 65536) value =
      .error .valueTooLarge := by
    simp [gatt_write_cmd, hlen]
  simp [characteristics_write, hnot, hie, hstr, hw, Nat.pos_iff_ne_zero.mp hpos]

/-- C7 witness: with the minimum negotiated MTU 48, a 46-byte payload
(MTU − 2, written as 92 hex characters) is rejected with ValueTooLarge and
nothing is sent. -/
theorem C7_value_too_large_witness :
    gatt_write_cmd 48 0x12 (List.replicate 46 0) =
      Except.error GattError.valueTooLarge ∧
    characteristics_write 48 0x12 (some (List.replicate 92 '0')) = [] :=
  C7_value_too_large 48 0x12 (List.replicate 46 0) 0x12 (List.replicate 92 '0')
    (by decide) (by decide) (by decide)

/-- C8: evaluation at the failing input — a characteristic-discovery response
that fails to decode (status 0, NULL list) makes `char_discovered_cb` return
with an empty trace: no further request, but also no loop quit and no free of
the callback data, so control is never released; its siblings `primary_cb` and
`char_read_cb` do quit the loop on the same condition. -/
theorem C8_decode_failure_behaviour :
    char_discovered_cb 1 0xffff false 0 none = [] ∧
    primary_cb 0xffff false 0 none = [Action.quitLoop] ∧
    char_read_cb false 0 none =
      [Action.printErrProtocolError, Action.quitLoop] := by decide

/-- C9: the process exits 0 when the requested operation (or listen session)
completes — a mode flag parsed and the connection up — and exits 1 on every
argument failure and on every connection failure: a parser-rejected argument
string makes `g_option_context_parse` revert every option value, so no mode
flag survives (whatever flags had been seen before the revert) and `main`
takes the help branch with exit code 1, exactly as when no mode flag was given
at all. -/
theorem C9_exit_codes (parseOk connectOk : Bool) (o : Opts) :
    (parseOk = false → (gatttool_main parseOk o connectOk).2 = 1) ∧
    (someMode o = false → (gatttool_main parseOk o connectOk).2 = 1) ∧
    (connectOk = false → (gatttool_main parseOk o connectOk).2 = 1) ∧
    (parseOk = true → someMode o = true → connectOk = true →
      (gatttool_main parseOk o connectOk).2 = 0) := by
  cases o with
  | mk p1 p2 p3 p4 p5 =>
    cases parseOk <;> cases connectOk <;> cases p1 <;> cases p2 <;> cases p3 <;>
      cases p4 <;> cases p5 <;> decide

/-- C9 witness: a parser-rejected argument exits 1 even though the primary flag
had been seen before the revert; the absence of any mode flag exits 1; a
connection failure exits 1; primary discovery over a successful connection
exits 0. -/
theorem C9_exit_codes_witness :
    (gatttool_main false ⟨true, false, false, false, false⟩ true).2 = 1 ∧
    (gatttool_main true ⟨false, false, false, false, false⟩ true).2 = 1 ∧
    (gatttool_main true ⟨true, false, false, false, false⟩ false).2 = 1 ∧
    (gatttool_main true ⟨true, false, false, false, false⟩ true).2 = 0 := by
  have h1 := C9_exit_codes false true ⟨true, false, false, false, false⟩
  have h2 := C9_exit_codes true true ⟨false, false, false, false, false⟩
  have h3 := C9_exit_codes true false ⟨true, false, false, false, false⟩
  have h4 := C9_exit_codes true true ⟨true, false, false, false, false⟩
  exact ⟨h1.1 rfl, h2.2.1 (by decide), h3.2.2.1 rfl,
    h4.2.2.2 rfl (by decide) rfl⟩

/-- C10: a non-positive target handle (the unset default -1 and the reserved
handle 0x0000 included) makes both the characteristic read and the
characteristic write print "A valid handle is required" and quit, handing
nothing to the gatt layer, the Dispatcher or the Transport. -/
theorem C10_invalid_handle_rejected (optHandle : Int) (mtu : Nat)
    (optValue : Option (List Char)) (h : optHandle ≤ 0) :
    characteristics_read optHandle =
      [Action.printErrValidHandleRequired, Action.quitLoop] ∧
    characteristics_write mtu optHandle optValue =
      [Action.printErrValidHandleRequired, Action.quitLoop] := by
    constructor <;> simp [characteristics_read, characteristics_write, h]

/-- C10 witness: the theorem instantiated at the reserved handle 0x0000 and at
the unset default -1. -/
theorem C10_invalid_handle_rejected_witness :
    characteristics_read 0 =
      [Action.printErrValidHandleRequired, Action.quitLoop] ∧
    characteristics_write 48 (-1) none =
      [Action.printErrValidHandleRequired, Action.quitLoop] :=
  ⟨(C10_invalid_handle_rejected 0 48 none (by decide)).1,
   (C10_invalid_handle_rejected (-1) 48 none (by decide)).2⟩

end GattTool
